import Mathlib

/-! Shallow embedding of the rust-mqtt decoding core.

This file embeds the MQTT v5 decoding core of the repository:
`src/utils/buffer_reader.rs`, `src/packet/control_packet.rs` and
`src/packet/connack_packet.rs`.

Conventions of the embedding:
* Bytes are `Nat` (every concrete input uses values `< 256`); buffers are
  `List Nat`; machine-integer overflow is made explicit with `% 2 ^ w` where it
  can matter.
* A Rust function with `&mut self` state is explicit state passing on
  `BuffReader`; a fallible read returns `Except Failure α × BuffReader`, the
  second component being the reader state left behind (Rust mutates `self`
  even when it returns `Err`).
* A Rust panic (out-of-range index or slice, `.unwrap()` on `Err`) is the
  `Failure.panic` outcome: the embedding checks exactly the condition under
  which the Rust runtime would abort, it does not add bounds checks the source
  lacks.
* The source files `src/encoding/variable_byte_integer.rs`,
  `src/packet/packet_type.rs` and `src/packet/property.rs` are not part of the
  provided sources; the definitions embedding them are modelled from the spec
  and say so in their doc comments.
* The unbounded `loop` of the property decoders is embedded with an explicit
  fuel parameter; running out of fuel is the distinct outcome `LoopOut.spun`
  (respectively `Outcome.spun`), never conflated with returning or aborting.
-/

/-- The `ParseError` enum from `src/utils/buffer_reader.rs`. -/
inductive ParseError where
  | Utf8Error
  | IndexOutOfBounce
  | VariableByteIntegerError
  | IdNotFound
  | EncodingError
  | DecodingError
deriving DecidableEq, Repr

/-- Outcome of one Rust call: a returned value, a returned `Err`, or a panic
(process abort from an unchecked index/slice or `.unwrap()`). -/
inductive Failure where
  | panic
  | err (e : ParseError)
deriving DecidableEq, Repr

/-- Embeds `EncodedString` from `src/utils/buffer_reader.rs`: a borrowed UTF-8 view
(kept here as the byte list of the view) plus its declared length. -/
structure EncodedString where
  string : List Nat
  len : Nat
deriving DecidableEq, Repr

/-- Embeds `EncodedString::new`. -/
def EncodedString.new : EncodedString :=
  { string := [], len := 0 }

/-- The `len(&self)` method of `EncodedString` (`self.len + 2`, u16 arithmetic).
Named `totalLen` because the field is already called `len`. -/
def EncodedString.totalLen (s : EncodedString) : Nat :=
  (s.len + 2) % 65536

/-- Embeds `BinaryData` from `src/utils/buffer_reader.rs`. -/
structure BinaryData where
  bin : List Nat
  len : Nat
deriving DecidableEq, Repr

/-- Embeds `BinaryData::new` (the source initializes the view to the slice `&[0]`). -/
def BinaryData.new : BinaryData :=
  { bin := [0], len := 0 }

/-- The `len(&self)` method of `BinaryData` (`self.len + 2`, u16 arithmetic). -/
def BinaryData.totalLen (b : BinaryData) : Nat :=
  (b.len + 2) % 65536

/-- Embeds `StringPair` from `src/utils/buffer_reader.rs`. -/
structure StringPair where
  name : EncodedString
  value : EncodedString
deriving DecidableEq, Repr

/-- The `len(&self)` method of `StringPair`: sum of both members' `len()`
(u16 arithmetic). -/
def StringPair.totalLen (p : StringPair) : Nat :=
  (p.name.totalLen + p.value.totalLen) % 65536

/-- RFC 3629 UTF-8 validity of a byte sequence, the check performed by
`core::str::from_utf8` in `read_string`. -/
def validUtf8 : List Nat → Bool
  | [] => true
  | b :: rest =>
    if b ≤ 0x7F then validUtf8 rest
    else if 0xC2 ≤ b ∧ b ≤ 0xDF then
      match rest with
      | c1 :: rest1 => decide (0x80 ≤ c1 ∧ c1 ≤ 0xBF) && validUtf8 rest1
      | [] => false
    else if b = 0xE0 then
      match rest with
      | c1 :: c2 :: rest2 =>
          decide (0xA0 ≤ c1 ∧ c1 ≤ 0xBF) && decide (0x80 ≤ c2 ∧ c2 ≤ 0xBF) &&
            validUtf8 rest2
      | _ => false
    else if (0xE1 ≤ b ∧ b ≤ 0xEC) ∨ b = 0xEE ∨ b = 0xEF then
      match rest with
      | c1 :: c2 :: rest2 =>
          decide (0x80 ≤ c1 ∧ c1 ≤ 0xBF) && decide (0x80 ≤ c2 ∧ c2 ≤ 0xBF) &&
            validUtf8 rest2
      | _ => false
    else if b = 0xED then
      match rest with
      | c1 :: c2 :: rest2 =>
          decide (0x80 ≤ c1 ∧ c1 ≤ 0x9F) && decide (0x80 ≤ c2 ∧ c2 ≤ 0xBF) &&
            validUtf8 rest2
      | _ => false
    else if b = 0xF0 then
      match rest with
      | c1 :: c2 :: c3 :: rest3 =>
          decide (0x90 ≤ c1 ∧ c1 ≤ 0xBF) && decide (0x80 ≤ c2 ∧ c2 ≤ 0xBF) &&
            decide (0x80 ≤ c3 ∧ c3 ≤ 0xBF) && validUtf8 rest3
      | _ => false
    else if 0xF1 ≤ b ∧ b ≤ 0xF3 then
      match rest with
      | c1 :: c2 :: c3 :: rest3 =>
          decide (0x80 ≤ c1 ∧ c1 ≤ 0xBF) && decide (0x80 ≤ c2 ∧ c2 ≤ 0xBF) &&
            decide (0x80 ≤ c3 ∧ c3 ≤ 0xBF) && validUtf8 rest3
      | _ => false
    else if b = 0xF4 then
      match rest with
      | c1 :: c2 :: c3 :: rest3 =>
          decide (0x80 ≤ c1 ∧ c1 ≤ 0x8F) && decide (0x80 ≤ c2 ∧ c2 ≤ 0xBF) &&
            decide (0x80 ≤ c3 ∧ c3 ≤ 0xBF) && validUtf8 rest3
      | _ => false
    else false

/-- Embeds `BuffReader` from `src/utils/buffer_reader.rs`: the borrowed buffer and the
cursor (`position`). -/
structure BuffReader where
  buffer : List Nat
  position : Nat
deriving DecidableEq, Repr

/-- Embeds `BuffReader::new`. -/
def BuffReader.new (buffer : List Nat) : BuffReader :=
  { buffer := buffer, position := 0 }

/-- Embeds `BuffReader::increment_position`. -/
def BuffReader.increment_position (r : BuffReader) (increment : Nat) : BuffReader :=
  { r with position := r.position + increment }

/-- Embeds `BuffReader::read_u8`: `self.buffer[self.position]` (panics when the index
is out of range), then `increment_position(1)`; always returns `Ok`. -/
def BuffReader.read_u8 (r : BuffReader) : Except Failure Nat × BuffReader :=
  if r.position < r.buffer.length then
    (Except.ok (r.buffer.getD r.position 0), r.increment_position 1)
  else
    (Except.error Failure.panic, r)

/-- Embeds `BuffReader::read_u16`: `self.buffer[self.position..].split_at(2)` (panics
when `position > len` or fewer than 2 bytes remain), big-endian value, then
`increment_position(2)`; always returns `Ok` when it does not panic. -/
def BuffReader.read_u16 (r : BuffReader) : Except Failure Nat × BuffReader :=
  if r.position + 2 ≤ r.buffer.length then
    (Except.ok (r.buffer.getD r.position 0 * 256 + r.buffer.getD (r.position + 1) 0),
      r.increment_position 2)
  else
    (Except.error Failure.panic, r)

/-- Embeds `BuffReader::read_u32`: as `read_u16` with 4 bytes. -/
def BuffReader.read_u32 (r : BuffReader) : Except Failure Nat × BuffReader :=
  if r.position + 4 ≤ r.buffer.length then
    (Except.ok (r.buffer.getD r.position 0 * 16777216 +
        r.buffer.getD (r.position + 1) 0 * 65536 +
        r.buffer.getD (r.position + 2) 0 * 256 +
        r.buffer.getD (r.position + 3) 0),
      r.increment_position 4)
  else
    (Except.error Failure.panic, r)

/-- Modelled from the spec: `VariableByteIntegerDecoder::decode` lives in
`src/encoding/variable_byte_integer.rs`, which is not among the provided
sources. Per §4.1 it receives the 4 raw bytes, scans continuation bits (bit 7)
from the first byte to find the true encoded length, sums the 7-bit groups in
little-endian digit order, and fails with `VariableByteIntegerError` when the
4th byte still carries a continuation bit. -/
def VariableByteIntegerDecoder.decode (b0 b1 b2 b3 : Nat) : Except ParseError Nat :=
  if b0 &&& 0x80 = 0 then
    Except.ok b0
  else if b1 &&& 0x80 = 0 then
    Except.ok ((b0 &&& 0x7F) + b1 * 128)
  else if b2 &&& 0x80 = 0 then
    Except.ok ((b0 &&& 0x7F) + (b1 &&& 0x7F) * 128 + b2 * 16384)
  else if b3 &&& 0x80 = 0 then
    Except.ok ((b0 &&& 0x7F) + (b1 &&& 0x7F) * 128 + (b2 &&& 0x7F) * 16384 +
      b3 * 2097152)
  else
    Except.error ParseError.VariableByteIntegerError

/-- Modelled from the spec (§4.1): the number of bytes the variable-byte
integer encoding of a value occupies — the "true encoded length". -/
def variableByteIntSize (v : Nat) : Nat :=
  if v < 128 then 1 else if v < 16384 then 2 else if v < 2097152 then 3 else 4

/-- Embeds `BuffReader::read_variable_byte_int`: indexes the 4 bytes at the cursor
individually (each panics when out of range, so the whole read panics unless
`position + 3 < buffer.len()`), computes `len` with the source's
`byte & 0x80 == 1` continuation tests, advances the cursor by `len` and then
returns the decoder's result (a decode `Err` is returned, not unwrapped, with
the cursor already advanced). -/
def BuffReader.read_variable_byte_int (r : BuffReader) :
    Except Failure Nat × BuffReader :=
  if r.position + 3 < r.buffer.length then
    let b0 := r.buffer.getD r.position 0
    let b1 := r.buffer.getD (r.position + 1) 0
    let b2 := r.buffer.getD (r.position + 2) 0
    let b3 := r.buffer.getD (r.position + 3) 0
    let len : Nat :=
      if b0 &&& 0x80 = 1 then
        if b1 &&& 0x80 = 1 then
          if b2 &&& 0x80 = 1 then 4 else 3
        else 2
      else 1
    let r2 := r.increment_position len
    match VariableByteIntegerDecoder.decode b0 b1 b2 b3 with
    | Except.ok v => (Except.ok v, r2)
    | Except.error e => (Except.error (Failure.err e), r2)
  else
    (Except.error Failure.panic, r)

/-- Embeds `BuffReader::read_string`: `read_u16` length prefix (an `Err` is returned
as-is), then `str::from_utf8(&buffer[position..position + len])` (the slice
panics when it overruns the buffer), `Utf8Error` on invalid UTF-8, otherwise
`increment_position(len)` and the borrowed view. -/
def BuffReader.read_string (r : BuffReader) :
    Except Failure EncodedString × BuffReader :=
  match r.read_u16 with
  | (Except.error f, r1) => (Except.error f, r1)
  | (Except.ok len_res, r1) =>
    if r1.position + len_res ≤ r1.buffer.length then
      let bytes := (r1.buffer.drop r1.position).take len_res
      if validUtf8 bytes then
        (Except.ok { string := bytes, len := len_res }, r1.increment_position len_res)
      else
        (Except.error (Failure.err ParseError.Utf8Error), r1)
    else
      (Except.error Failure.panic, r1)

/-- Embeds `BuffReader::read_binary`: `read_u16` length prefix, then
`&buffer[position..position + len]` (the slice panics when it overruns the
buffer). The source returns the view without ever calling
`increment_position` for the payload bytes. -/
def BuffReader.read_binary (r : BuffReader) :
    Except Failure BinaryData × BuffReader :=
  match r.read_u16 with
  | (Except.error f, r1) => (Except.error f, r1)
  | (Except.ok len_res, r1) =>
    if r1.position + len_res ≤ r1.buffer.length then
      (Except.ok { bin := (r1.buffer.drop r1.position).take len_res, len := len_res }, r1)
    else
      (Except.error Failure.panic, r1)

/-- Embeds `BuffReader::read_string_pair`: `read_string` for the name and then for the
value, short-circuiting on the first `Err`. -/
def BuffReader.read_string_pair (r : BuffReader) :
    Except Failure StringPair × BuffReader :=
  match r.read_string with
  | (Except.error f, r1) => (Except.error f, r1)
  | (Except.ok name, r1) =>
    match r1.read_string with
    | (Except.error f, r2) => (Except.error f, r2)
    | (Except.ok value, r2) => (Except.ok { name := name, value := value }, r2)

/-- Embeds `BuffReader::read_message`: `&buffer[position..total_len]` (panics when
`position > total_len` or `total_len > buffer.len()`); does not move the
cursor. -/
def BuffReader.read_message (r : BuffReader) (total_len : Nat) :
    Except Failure (List Nat) × BuffReader :=
  if r.position ≤ total_len ∧ total_len ≤ r.buffer.length then
    (Except.ok ((r.buffer.take total_len).drop r.position), r)
  else
    (Except.error Failure.panic, r)

/-- Modelled from the spec (§4.5): `PacketType` lives in
`src/packet/packet_type.rs`, which is not among the provided sources. One tag
per MQTT v5 packet kind plus the reserved high nibble `0x0`. -/
inductive PacketType where
  | Reserved
  | Connect
  | Connack
  | Publish
  | Puback
  | Pubrec
  | Pubrel
  | Pubcomp
  | Subscribe
  | Suback
  | Unsubscribe
  | Unsuback
  | Pingreq
  | Pingresp
  | Disconnect
  | Auth
deriving DecidableEq, Repr

/-- Modelled from the spec (§4.5): `PacketType::from(u8)` maps the fixed
header's high nibble (bits 7..4) to the packet-kind tag; the low nibble
carries flags and is not part of the discriminant. (`from` is a Lean keyword,
hence the name `ofByte`.) -/
def PacketType.ofByte (b : Nat) : PacketType :=
  match b &&& 0xF0 with
  | 0x10 => PacketType.Connect
  | 0x20 => PacketType.Connack
  | 0x30 => PacketType.Publish
  | 0x40 => PacketType.Puback
  | 0x50 => PacketType.Pubrec
  | 0x60 => PacketType.Pubrel
  | 0x70 => PacketType.Pubcomp
  | 0x80 => PacketType.Subscribe
  | 0x90 => PacketType.Suback
  | 0xA0 => PacketType.Unsubscribe
  | 0xB0 => PacketType.Unsuback
  | 0xC0 => PacketType.Pingreq
  | 0xD0 => PacketType.Pingresp
  | 0xE0 => PacketType.Disconnect
  | 0xF0 => PacketType.Auth
  | _ => PacketType.Reserved

/-- Modelled from the spec (§3, §4.3, §6): `Property` lives in
`src/packet/property.rs`, which is not among the provided sources. A closed
tagged union, one variant per MQTT v5 property identifier, each carrying the
value type the MQTT v5 specification mandates for that identifier. -/
inductive Property where
  | payloadFormatIndicator (v : Nat)
  | messageExpiryInterval (v : Nat)
  | contentType (v : EncodedString)
  | responseTopic (v : EncodedString)
  | correlationData (v : BinaryData)
  | subscriptionIdentifier (v : Nat)
  | sessionExpiryInterval (v : Nat)
  | assignedClientIdentifier (v : EncodedString)
  | serverKeepAlive (v : Nat)
  | authenticationMethod (v : EncodedString)
  | authenticationData (v : BinaryData)
  | requestProblemInformation (v : Nat)
  | willDelayInterval (v : Nat)
  | requestResponseInformation (v : Nat)
  | responseInformation (v : EncodedString)
  | serverReference (v : EncodedString)
  | reasonString (v : EncodedString)
  | receiveMaximum (v : Nat)
  | topicAliasMaximum (v : Nat)
  | topicAlias (v : Nat)
  | maximumQoS (v : Nat)
  | retainAvailable (v : Nat)
  | userProperty (v : StringPair)
  | maximumPacketSize (v : Nat)
  | wildcardSubscriptionAvailable (v : Nat)
  | subscriptionIdentifierAvailable (v : Nat)
  | sharedSubscriptionAvailable (v : Nat)
deriving DecidableEq, Repr

/-- Modelled from the spec (§4.3 with §4.4's loop accounting): the `len()`
method of `Property` reports the encoded byte count of the property's value,
so that the decode loops' `res.len() + 1` equals the total bytes consumed for
the record (identifier byte + value bytes), which is what §4.3 prescribes the
caller track against the declared total. -/
def Property.len : Property → Nat
  | Property.payloadFormatIndicator _ => 1
  | Property.messageExpiryInterval _ => 4
  | Property.contentType s => s.totalLen
  | Property.responseTopic s => s.totalLen
  | Property.correlationData b => b.totalLen
  | Property.subscriptionIdentifier v => variableByteIntSize v
  | Property.sessionExpiryInterval _ => 4
  | Property.assignedClientIdentifier s => s.totalLen
  | Property.serverKeepAlive _ => 2
  | Property.authenticationMethod s => s.totalLen
  | Property.authenticationData b => b.totalLen
  | Property.requestProblemInformation _ => 1
  | Property.willDelayInterval _ => 4
  | Property.requestResponseInformation _ => 1
  | Property.responseInformation s => s.totalLen
  | Property.serverReference s => s.totalLen
  | Property.reasonString s => s.totalLen
  | Property.receiveMaximum _ => 2
  | Property.topicAliasMaximum _ => 2
  | Property.topicAlias _ => 2
  | Property.maximumQoS _ => 1
  | Property.retainAvailable _ => 1
  | Property.userProperty p => p.totalLen
  | Property.maximumPacketSize _ => 4
  | Property.wildcardSubscriptionAvailable _ => 1
  | Property.subscriptionIdentifierAvailable _ => 1
  | Property.sharedSubscriptionAvailable _ => 1

/-- Helper for `Property.decode`: run one value read and wrap a success in the
given `Property` constructor, passing reader errors through unchanged. -/
def mapProp {α : Type} (read : BuffReader → Except Failure α × BuffReader)
    (f : α → Property) (r : BuffReader) : Except Failure Property × BuffReader :=
  match read r with
  | (Except.ok v, r1) => (Except.ok (f v), r1)
  | (Except.error e, r1) => (Except.error e, r1)

/-- Modelled from the spec (§4.3): `Property::decode` lives in
`src/packet/property.rs`, which is not among the provided sources. It reads
one identifier byte at the reader's cursor, dispatches to the value type the
MQTT v5 specification fixes for that identifier (using the source's
`BuffReader` reads), and constructs the matching variant; an unknown
identifier fails with `IdNotFound`, and a failed value read propagates as the
reader reported it. -/
def Property.decode (r : BuffReader) : Except Failure Property × BuffReader :=
  match r.read_u8 with
  | (Except.error f, r1) => (Except.error f, r1)
  | (Except.ok property_identifier, r1) =>
    match property_identifier with
    | 0x01 => mapProp BuffReader.read_u8 Property.payloadFormatIndicator r1
    | 0x02 => mapProp BuffReader.read_u32 Property.messageExpiryInterval r1
    | 0x03 => mapProp BuffReader.read_string Property.contentType r1
    | 0x08 => mapProp BuffReader.read_string Property.responseTopic r1
    | 0x09 => mapProp BuffReader.read_binary Property.correlationData r1
    | 0x0B => mapProp BuffReader.read_variable_byte_int Property.subscriptionIdentifier r1
    | 0x11 => mapProp BuffReader.read_u32 Property.sessionExpiryInterval r1
    | 0x12 => mapProp BuffReader.read_string Property.assignedClientIdentifier r1
    | 0x13 => mapProp BuffReader.read_u16 Property.serverKeepAlive r1
    | 0x15 => mapProp BuffReader.read_string Property.authenticationMethod r1
    | 0x16 => mapProp BuffReader.read_binary Property.authenticationData r1
    | 0x17 => mapProp BuffReader.read_u8 Property.requestProblemInformation r1
    | 0x18 => mapProp BuffReader.read_u32 Property.willDelayInterval r1
    | 0x19 => mapProp BuffReader.read_u8 Property.requestResponseInformation r1
    | 0x1A => mapProp BuffReader.read_string Property.responseInformation r1
    | 0x1C => mapProp BuffReader.read_string Property.serverReference r1
    | 0x1F => mapProp BuffReader.read_string Property.reasonString r1
    | 0x21 => mapProp BuffReader.read_u16 Property.receiveMaximum r1
    | 0x22 => mapProp BuffReader.read_u16 Property.topicAliasMaximum r1
    | 0x23 => mapProp BuffReader.read_u16 Property.topicAlias r1
    | 0x24 => mapProp BuffReader.read_u8 Property.maximumQoS r1
    | 0x25 => mapProp BuffReader.read_u8 Property.retainAvailable r1
    | 0x26 => mapProp BuffReader.read_string_pair Property.userProperty r1
    | 0x27 => mapProp BuffReader.read_u32 Property.maximumPacketSize r1
    | 0x28 => mapProp BuffReader.read_u8 Property.wildcardSubscriptionAvailable r1
    | 0x29 => mapProp BuffReader.read_u8 Property.subscriptionIdentifierAvailable r1
    | 0x2A => mapProp BuffReader.read_u8 Property.sharedSubscriptionAvailable r1
    | _ => (Except.error (Failure.err ParseError.IdNotFound), r1)

/-- Embeds `MAX_PROPERTIES` from `src/packet/control_packet.rs` (also
`src/packet/connack_packet.rs`). -/
def MAX_PROPERTIES : Nat := 18

/-- Embeds `MAX_WILL_PROPERTIES` from `src/packet/control_packet.rs`. -/
def MAX_WILL_PROPERTIES : Nat := 7

/-- Embeds `heapless::Vec::push` with its `Result` discarded, exactly as at every
`push` call site in the source (`self.properties.push(res);`): when the vector
is already at capacity the element is silently dropped. -/
def pushDiscard (cap : Nat) (l : List Property) (p : Property) : List Property :=
  if l.length < cap then l ++ [p] else l

/-- Outcome of one packet-level decode call: normal return, returned `Err`,
panic, or fuel exhaustion (the embedded `loop` still spinning). -/
inductive Outcome (α : Type) where
  | ok (v : α)
  | err (e : ParseError)
  | panicked
  | spun
deriving DecidableEq, Repr

/-- Rust `.unwrap()` applied to a reader result: any `Err` (and any panic from
inside the read) aborts the process. -/
def unwrapRead {α : Type} (v : Except Failure α × BuffReader) :
    Outcome α × BuffReader :=
  match v with
  | (Except.ok a, r) => (Outcome.ok a, r)
  | (Except.error _, r) => (Outcome.panicked, r)

/-- Sequencing of packet-level steps: anything other than a normal return
propagates. -/
def Outcome.andThen {α β : Type} (v : Outcome α × BuffReader)
    (f : α → BuffReader → Outcome β × BuffReader) : Outcome β × BuffReader :=
  match v with
  | (Outcome.ok a, r) => f a r
  | (Outcome.err e, r) => (Outcome.err e, r)
  | (Outcome.panicked, r) => (Outcome.panicked, r)
  | (Outcome.spun, r) => (Outcome.spun, r)

/-- Result of the embedded property `loop`. -/
inductive LoopOut where
  | broke (props : List Property) (x : Nat) (r : BuffReader)
  | panicked (r : BuffReader)
  | spun (x : Nat) (props : List Property) (r : BuffReader)
deriving DecidableEq, Repr

/-- The `loop` body shared verbatim by `ControlPacket::decode_properties`,
`ControlPacket::decode_will_properties` and `ConnackPacket::decode_properties`
(they differ only in the capacity of the `heapless::Vec` pushed into and in
the variable holding the declared length): decode one property; on `Ok` add
`res.len() + 1` to the running sum `x` (u32 arithmetic) and push (discarding
the push `Result`); on `Err` only log; then `break` when `x` equals the
declared length, else loop. A panic inside `Property::decode` aborts; `fuel`
bounds the embedding of the unbounded `loop`. -/
def property_decode_loop (cap : Nat) (property_len : Nat) :
    Nat → Nat → List Property → BuffReader → LoopOut
  | 0, x, acc, r => LoopOut.spun x acc r
  | fuel + 1, x, acc, r =>
    match Property.decode r with
    | (Except.ok res, r1) =>
      let x1 := (x + res.len + 1) % 4294967296
      let acc1 := pushDiscard cap acc res
      if x1 = property_len then LoopOut.broke acc1 x1 r1
      else property_decode_loop cap property_len fuel x1 acc1 r1
    | (Except.error (Failure.err _), r1) =>
      if x = property_len then LoopOut.broke acc x r1
      else property_decode_loop cap property_len fuel x acc r1
    | (Except.error Failure.panic, r1) => LoopOut.panicked r1

/-- Embeds `ControlPacket` (the CONNECT packet) from `src/packet/control_packet.rs`. -/
structure ControlPacket where
  fixed_header : Nat
  remain_len : Nat
  packet_identifier : Nat
  protocol_name_len : Nat
  protocol_name : Nat
  protocol_version : Nat
  connect_flags : Nat
  keep_alive : Nat
  property_len : Nat
  properties : List Property
  client_id : EncodedString
  will_property_len : Nat
  will_properties : List Property
  will_topic : EncodedString
  will_payload : BinaryData
  username : EncodedString
  password : BinaryData
deriving DecidableEq, Repr

/-- Embeds `ControlPacket::clean`. -/
def ControlPacket.clean (properties : List Property)
    (will_properties : List Property) : ControlPacket :=
  { fixed_header := 0x00, remain_len := 0, packet_identifier := 0,
    protocol_name_len := 0, protocol_name := 0, protocol_version := 5,
    connect_flags := 0, keep_alive := 0, property_len := 0,
    properties := properties, client_id := EncodedString.new,
    will_property_len := 0, will_properties := will_properties,
    will_topic := EncodedString.new, will_payload := BinaryData.new,
    username := EncodedString.new, password := BinaryData.new }

/-- Embeds `ControlPacket::decode_fixed_header`: `read_u8().unwrap()` into
`fixed_header`, `read_variable_byte_int().unwrap()` into `remain_len`, and the
packet type of the first byte is returned. -/
def ControlPacket.decode_fixed_header (p : ControlPacket) (r : BuffReader) :
    Outcome (PacketType × ControlPacket) × BuffReader :=
  Outcome.andThen (unwrapRead r.read_u8) (fun first_byte r1 =>
    let p1 := { p with fixed_header := first_byte }
    Outcome.andThen (unwrapRead r1.read_variable_byte_int) (fun rl r2 =>
      (Outcome.ok (PacketType.ofByte first_byte, { p1 with remain_len := rl }), r2)))

/-- Embeds `ControlPacket::decode_properties`:
`read_variable_byte_int().unwrap()` into `property_len`, then the property
`loop` pushing into the capacity-`MAX_PROPERTIES` vector. -/
def ControlPacket.decode_properties (p : ControlPacket) (r : BuffReader)
    (fuel : Nat) : Outcome ControlPacket × BuffReader :=
  Outcome.andThen (unwrapRead r.read_variable_byte_int) (fun property_len r1 =>
    let p1 := { p with property_len := property_len }
    match property_decode_loop MAX_PROPERTIES property_len fuel 0 p1.properties r1 with
    | LoopOut.broke props _ r2 => (Outcome.ok { p1 with properties := props }, r2)
    | LoopOut.panicked r2 => (Outcome.panicked, r2)
    | LoopOut.spun _ _ r2 => (Outcome.spun, r2))

/-- Embeds `ControlPacket::decode_will_properties`: the declared length is a local
variable (the `will_property_len` field is not written), the `loop` pushes
into the capacity-`MAX_WILL_PROPERTIES` vector. -/
def ControlPacket.decode_will_properties (p : ControlPacket) (r : BuffReader)
    (fuel : Nat) : Outcome ControlPacket × BuffReader :=
  Outcome.andThen (unwrapRead r.read_variable_byte_int) (fun will_property_len r1 =>
    match property_decode_loop MAX_WILL_PROPERTIES will_property_len fuel 0
        p.will_properties r1 with
    | LoopOut.broke props _ r2 => (Outcome.ok { p with will_properties := props }, r2)
    | LoopOut.panicked r2 => (Outcome.panicked, r2)
    | LoopOut.spun _ _ r2 => (Outcome.spun, r2))

/-- Embeds `ControlPacket::decode_payload`: `read_string().unwrap()` into `client_id`;
then the three conditional sections, each gated by the source's
`connect_flags & (1 << k) == 1` test (`k` = 2 for the will section, 7 for
username, 6 for password). -/
def ControlPacket.decode_payload (p : ControlPacket) (r : BuffReader)
    (fuel : Nat) : Outcome ControlPacket × BuffReader :=
  Outcome.andThen (unwrapRead r.read_string) (fun cid r1 =>
    let p1 := { p with client_id := cid }
    let willStep : Outcome ControlPacket × BuffReader :=
      if p1.connect_flags &&& (1 <<< 2) = 1 then
        Outcome.andThen (p1.decode_will_properties r1 fuel) (fun p2 r2 =>
          Outcome.andThen (unwrapRead r2.read_string) (fun wt r3 =>
            let p3 := { p2 with will_topic := wt }
            Outcome.andThen (unwrapRead r3.read_binary) (fun wp r4 =>
              (Outcome.ok { p3 with will_payload := wp }, r4))))
      else (Outcome.ok p1, r1)
    Outcome.andThen willStep (fun p4 r4 =>
      let userStep : Outcome ControlPacket × BuffReader :=
        if p4.connect_flags &&& (1 <<< 7) = 1 then
          Outcome.andThen (unwrapRead r4.read_string) (fun un r5 =>
            (Outcome.ok { p4 with username := un }, r5))
        else (Outcome.ok p4, r4)
      Outcome.andThen userStep (fun p5 r5 =>
        if p5.connect_flags &&& (1 <<< 6) = 1 then
          Outcome.andThen (unwrapRead r5.read_binary) (fun pw r6 =>
            (Outcome.ok { p5 with password := pw }, r6))
        else (Outcome.ok p5, r5))))

/-- Embeds `ControlPacket::decode_control_packet`: decode the fixed header; a packet
type different from CONNECT is only logged (the source has no `return` there,
decoding continues); then `packet_identifier = 0` and the unwrapped reads of
the variable header, the property section and the payload. -/
def ControlPacket.decode_control_packet (p : ControlPacket) (r : BuffReader)
    (fuel : Nat) : Outcome ControlPacket × BuffReader :=
  Outcome.andThen (p.decode_fixed_header r) (fun tp r1 =>
    let p1 := { tp.2 with packet_identifier := 0 }
    Outcome.andThen (unwrapRead r1.read_u16) (fun pnl r2 =>
      let p2 := { p1 with protocol_name_len := pnl }
      Outcome.andThen (unwrapRead r2.read_u32) (fun pn r3 =>
        let p3 := { p2 with protocol_name := pn }
        Outcome.andThen (unwrapRead r3.read_u8) (fun pv r4 =>
          let p4 := { p3 with protocol_version := pv }
          Outcome.andThen (unwrapRead r4.read_u8) (fun cf r5 =>
            let p5 := { p4 with connect_flags := cf }
            Outcome.andThen (unwrapRead r5.read_u16) (fun ka r6 =>
              let p6 := { p5 with keep_alive := ka }
              Outcome.andThen (p6.decode_properties r6 fuel) (fun p7 r7 =>
                p7.decode_payload r7 fuel)))))))

/-- Embeds `impl Packet for ControlPacket { fn decode }`: the body only emits the
diagnostic that decode is not available for a control packet (the call to
`decode_control_packet` is commented out). The third component counts the
diagnostics emitted. -/
def ControlPacket.trait_decode (p : ControlPacket) (r : BuffReader) :
    ControlPacket × BuffReader × Nat :=
  (p, r, 1)

/-- Embeds `ConnackPacket` from `src/packet/connack_packet.rs`. -/
structure ConnackPacket where
  fixed_header : Nat
  remain_len : Nat
  ack_flags : Nat
  connect_reason_code : Nat
  property_len : Nat
  properties : List Property
deriving DecidableEq, Repr

/-- Embeds `ConnackPacket::decode_fixed_header` (same body as the `ControlPacket`
one). -/
def ConnackPacket.decode_fixed_header (p : ConnackPacket) (r : BuffReader) :
    Outcome (PacketType × ConnackPacket) × BuffReader :=
  Outcome.andThen (unwrapRead r.read_u8) (fun first_byte r1 =>
    let p1 := { p with fixed_header := first_byte }
    Outcome.andThen (unwrapRead r1.read_variable_byte_int) (fun rl r2 =>
      (Outcome.ok (PacketType.ofByte first_byte, { p1 with remain_len := rl }), r2)))

/-- Embeds `ConnackPacket::decode_properties` (same loop as the `ControlPacket` one,
capacity `MAX_PROPERTIES`). -/
def ConnackPacket.decode_properties (p : ConnackPacket) (r : BuffReader)
    (fuel : Nat) : Outcome ConnackPacket × BuffReader :=
  Outcome.andThen (unwrapRead r.read_variable_byte_int) (fun property_len r1 =>
    let p1 := { p with property_len := property_len }
    match property_decode_loop MAX_PROPERTIES property_len fuel 0 p1.properties r1 with
    | LoopOut.broke props _ r2 => (Outcome.ok { p1 with properties := props }, r2)
    | LoopOut.panicked r2 => (Outcome.panicked, r2)
    | LoopOut.spun _ _ r2 => (Outcome.spun, r2))

/-- Embeds `ConnackPacket::decode_connack_packet`: decode the fixed header; when the
type is not CONNACK the source logs and executes a plain `return` — a normal
return with the packet as decode_fixed_header left it, no error value.
Otherwise `read_u8().unwrap()` into `ack_flags` and `connect_reason_code`,
then the property section. -/
def ConnackPacket.decode_connack_packet (p : ConnackPacket) (r : BuffReader)
    (fuel : Nat) : Outcome ConnackPacket × BuffReader :=
  Outcome.andThen (p.decode_fixed_header r) (fun tp r1 =>
    if tp.1 ≠ PacketType.Connack then
      (Outcome.ok tp.2, r1)
    else
      Outcome.andThen (unwrapRead r1.read_u8) (fun af r2 =>
        let p2 := { tp.2 with ack_flags := af }
        Outcome.andThen (unwrapRead r2.read_u8) (fun rc r3 =>
          let p3 := { p2 with connect_reason_code := rc }
          p3.decode_properties r3 fuel)))

/-- The backing range of a zero-copy view: the view's bytes are the contiguous
slice of the buffer starting at some offset `i`, and its range `[i, i + n)`
lies within the buffer's bounds. -/
def viewInRange (buf : List Nat) (bytes : List Nat) (n : Nat) : Prop :=
  ∃ i, i + n ≤ buf.length ∧ bytes = (buf.drop i).take n

/-- The claimed invariant at one reader state `r`: every `BuffReader` operation
leaves the buffer unchanged, never moves the cursor backwards, never moves it
past the end of the buffer, and every view a successful read returns is backed
by an in-bounds range of the buffer. -/
def cursorInvariantStmt (r : BuffReader) : Prop :=
  ((r.read_u8).2.buffer = r.buffer ∧ r.position ≤ (r.read_u8).2.position ∧
    (r.read_u8).2.position ≤ r.buffer.length) ∧
  ((r.read_u16).2.buffer = r.buffer ∧ r.position ≤ (r.read_u16).2.position ∧
    (r.read_u16).2.position ≤ r.buffer.length) ∧
  ((r.read_u32).2.buffer = r.buffer ∧ r.position ≤ (r.read_u32).2.position ∧
    (r.read_u32).2.position ≤ r.buffer.length) ∧
  ((r.read_variable_byte_int).2.buffer = r.buffer ∧
    r.position ≤ (r.read_variable_byte_int).2.position ∧
    (r.read_variable_byte_int).2.position ≤ r.buffer.length) ∧
  ((r.read_string).2.buffer = r.buffer ∧ r.position ≤ (r.read_string).2.position ∧
    (r.read_string).2.position ≤ r.buffer.length ∧
    ∀ s, (r.read_string).1 = Except.ok s → viewInRange r.buffer s.string s.len) ∧
  ((r.read_binary).2.buffer = r.buffer ∧ r.position ≤ (r.read_binary).2.position ∧
    (r.read_binary).2.position ≤ r.buffer.length ∧
    ∀ b, (r.read_binary).1 = Except.ok b → viewInRange r.buffer b.bin b.len) ∧
  ((r.read_string_pair).2.buffer = r.buffer ∧
    r.position ≤ (r.read_string_pair).2.position ∧
    (r.read_string_pair).2.position ≤ r.buffer.length ∧
    ∀ sp, (r.read_string_pair).1 = Except.ok sp →
      viewInRange r.buffer sp.name.string sp.name.len ∧
        viewInRange r.buffer sp.value.string sp.value.len) ∧
  (∀ total_len, (r.read_message total_len).2 = r ∧
    ∀ m, (r.read_message total_len).1 = Except.ok m →
      viewInRange r.buffer m (total_len - r.position)) ∧
  (∀ inc, r.position ≤ (r.increment_position inc).position)

/-! ## Theorems -/

/-- Cursor/buffer/view facts for `read_u8`: buffer untouched, cursor
monotone and in bounds. -/
theorem read_u8_invariant (r : BuffReader) (h : r.position ≤ r.buffer.length) :
    (r.read_u8).2.buffer = r.buffer ∧ r.position ≤ (r.read_u8).2.position ∧
      (r.read_u8).2.position ≤ r.buffer.length := by
  unfold BuffReader.read_u8
  split
  next h1 =>
    refine ⟨rfl, ?_, ?_⟩ <;> simp only [BuffReader.increment_position] <;> omega
  next h1 =>
    exact ⟨rfl, Nat.le.refl, h⟩

/-- Cursor/buffer facts for `read_u16`. -/
theorem read_u16_invariant (r : BuffReader) (h : r.position ≤ r.buffer.length) :
    (r.read_u16).2.buffer = r.buffer ∧ r.position ≤ (r.read_u16).2.position ∧
      (r.read_u16).2.position ≤ r.buffer.length := by
  unfold BuffReader.read_u16
  split
  next h1 =>
    refine ⟨rfl, ?_, ?_⟩ <;> simp only [BuffReader.increment_position] <;> omega
  next h1 =>
    exact ⟨rfl, Nat.le.refl, h⟩

/-- Cursor/buffer facts for `read_u32`. -/
theorem read_u32_invariant (r : BuffReader) (h : r.position ≤ r.buffer.length) :
    (r.read_u32).2.buffer = r.buffer ∧ r.position ≤ (r.read_u32).2.position ∧
      (r.read_u32).2.position ≤ r.buffer.length := by
  unfold BuffReader.read_u32
  split
  next h1 =>
    refine ⟨rfl, ?_, ?_⟩ <;> simp only [BuffReader.increment_position] <;> omega
  next h1 =>
    exact ⟨rfl, Nat.le.refl, h⟩

/-- Cursor/buffer facts for `read_variable_byte_int`: whatever the decoder
returns, the cursor advances by the computed `len ≤ 4` and four bytes were in
range, so it stays within the buffer. -/
theorem read_variable_byte_int_invariant (r : BuffReader)
    (h : r.position ≤ r.buffer.length) :
    (r.read_variable_byte_int).2.buffer = r.buffer ∧
      r.position ≤ (r.read_variable_byte_int).2.position ∧
      (r.read_variable_byte_int).2.position ≤ r.buffer.length := by
  unfold BuffReader.read_variable_byte_int
  split
  next h1 =>
    cases hdec : VariableByteIntegerDecoder.decode (r.buffer.getD r.position 0)
        (r.buffer.getD (r.position + 1) 0) (r.buffer.getD (r.position + 2) 0)
        (r.buffer.getD (r.position + 3) 0) with
    | ok v =>
      simp only [hdec, BuffReader.increment_position]
      refine ⟨trivial, ?_, ?_⟩ <;> split_ifs <;> omega
    | error e =>
      simp only [hdec, BuffReader.increment_position]
      refine ⟨trivial, ?_, ?_⟩ <;> split_ifs <;> omega
  next h1 =>
    exact ⟨rfl, Nat.le.refl, h⟩

/-- Cursor/buffer/view facts for `read_string`: in every outcome the cursor
stays monotone and in bounds, and a successful read's view is backed by the
in-bounds range starting right after the 2-byte length prefix. -/
theorem read_string_invariant (r : BuffReader) (h : r.position ≤ r.buffer.length) :
    (r.read_string).2.buffer = r.buffer ∧ r.position ≤ (r.read_string).2.position ∧
      (r.read_string).2.position ≤ r.buffer.length ∧
      ∀ s, (r.read_string).1 = Except.ok s → viewInRange r.buffer s.string s.len := by
  have h16 := read_u16_invariant r h
  unfold BuffReader.read_string
  rcases hu : r.read_u16 with ⟨v, r1⟩
  rw [hu] at h16
  dsimp only at h16
  obtain ⟨hb, hm, hl⟩ := h16
  rcases v with f | len_res
  · exact ⟨hb, hm, hl, fun s hs => absurd hs (by simp)⟩
  · dsimp only
    split
    next h2 =>
      rw [hb] at h2
      split
      next h3 =>
        refine ⟨hb, ?_, ?_, ?_⟩
        · dsimp only [BuffReader.increment_position]; omega
        · dsimp only [BuffReader.increment_position]; omega
        · intro s hs
          cases hs
          exact ⟨r1.position, h2, by rw [hb]⟩
      next h3 =>
        exact ⟨hb, hm, hl, fun s hs => absurd hs (by simp)⟩
    next h2 =>
      exact ⟨hb, hm, hl, fun s hs => absurd hs (by simp)⟩

/-- Cursor/buffer/view facts for `read_binary`: the cursor only moves past the
length prefix (the source never advances it over the payload), which keeps it
monotone and in bounds; a successful read's view is backed by the in-bounds
range right after the prefix. -/
theorem read_binary_invariant (r : BuffReader) (h : r.position ≤ r.buffer.length) :
    (r.read_binary).2.buffer = r.buffer ∧ r.position ≤ (r.read_binary).2.position ∧
      (r.read_binary).2.position ≤ r.buffer.length ∧
      ∀ b, (r.read_binary).1 = Except.ok b → viewInRange r.buffer b.bin b.len := by
  have h16 := read_u16_invariant r h
  unfold BuffReader.read_binary
  rcases hu : r.read_u16 with ⟨v, r1⟩
  rw [hu] at h16
  dsimp only at h16
  obtain ⟨hb, hm, hl⟩ := h16
  rcases v with f | len_res
  · exact ⟨hb, hm, hl, fun b hs => absurd hs (by simp)⟩
  · dsimp only
    split
    next h2 =>
      rw [hb] at h2
      refine ⟨hb, hm, hl, ?_⟩
      intro b hs
      cases hs
      exact ⟨r1.position, h2, by rw [hb]⟩
    next h2 =>
      exact ⟨hb, hm, hl, fun b hs => absurd hs (by simp)⟩

/-- Cursor/buffer/view facts for `read_string_pair`, by composing the
`read_string` facts for the name and then the value. -/
theorem read_string_pair_invariant (r : BuffReader)
    (h : r.position ≤ r.buffer.length) :
    (r.read_string_pair).2.buffer = r.buffer ∧
      r.position ≤ (r.read_string_pair).2.position ∧
      (r.read_string_pair).2.position ≤ r.buffer.length ∧
      ∀ sp, (r.read_string_pair).1 = Except.ok sp →
        viewInRange r.buffer sp.name.string sp.name.len ∧
          viewInRange r.buffer sp.value.string sp.value.len := by
  have hs1 := read_string_invariant r h
  unfold BuffReader.read_string_pair
  rcases hn : r.read_string with ⟨v1, r1⟩
  rw [hn] at hs1
  dsimp only at hs1
  obtain ⟨hb1, hm1, hl1, hv1⟩ := hs1
  rcases v1 with f | name
  · exact ⟨hb1, hm1, hl1, fun sp hsp => absurd hsp (by simp)⟩
  · have hpos1 : r1.position ≤ r1.buffer.length := by rw [hb1]; exact hl1
    have hs2 := read_string_invariant r1 hpos1
    dsimp only
    rcases hvv : r1.read_string with ⟨v2, r2⟩
    rw [hvv] at hs2
    dsimp only at hs2
    obtain ⟨hb2, hm2, hl2, hv2⟩ := hs2
    rw [hb1] at hb2 hl2
    rcases v2 with f | value
    · dsimp only
      exact ⟨hb2, by omega, hl2, fun sp hsp => absurd hsp (by simp)⟩
    · dsimp only
      refine ⟨hb2, by omega, hl2, ?_⟩
      intro sp hsp
      cases hsp
      refine ⟨hv1 name rfl, ?_⟩
      have := hv2 value rfl
      rw [hb1] at this
      exact this

/-- Cursor/buffer/view facts for `read_message`: it never moves the cursor,
and a successful read's view is the in-bounds range `[position, total_len)`. -/
theorem read_message_invariant (r : BuffReader) (total_len : Nat) :
    (r.read_message total_len).2 = r ∧
      ∀ m, (r.read_message total_len).1 = Except.ok m →
        viewInRange r.buffer m (total_len - r.position) := by
  unfold BuffReader.read_message
  split
  next h1 =>
    refine ⟨rfl, ?_⟩
    intro m hm
    cases hm
    exact ⟨r.position, by omega, by rw [List.drop_take]⟩
  next h1 =>
    exact ⟨rfl, fun m hm => absurd hm (by simp)⟩

/-- C9: across every sequence of decoder operations on a `BuffReader`, the
cursor position is monotonically non-decreasing and never exceeds the buffer
length, and every returned view (string or binary slice) has its backing byte
range within the buffer's bounds — proved as: starting from any reader state
whose cursor is in bounds, every `BuffReader` operation (`read_u8`,
`read_u16`, `read_u32`, `read_variable_byte_int`, `read_string`,
`read_binary`, `read_string_pair`, `read_message`) preserves the bound, never
moves the cursor backwards, leaves the buffer untouched, and returns only
views backed by in-bounds ranges; `increment_position` never moves the cursor
backwards. -/
theorem c9_cursor_invariant (r : BuffReader) (h : r.position ≤ r.buffer.length) :
    cursorInvariantStmt r := by
  unfold cursorInvariantStmt
  exact ⟨read_u8_invariant r h, read_u16_invariant r h, read_u32_invariant r h,
    read_variable_byte_int_invariant r h, read_string_invariant r h,
    read_binary_invariant r h, read_string_pair_invariant r h,
    fun total_len => read_message_invariant r total_len,
    fun inc => Nat.le_add_right r.position inc⟩

/-- Witness for C9 at a concrete in-bounds reader state. -/
theorem c9_cursor_invariant_witness :
    (BuffReader.new [0, 2, 97, 98]).position ≤
        (BuffReader.new [0, 2, 97, 98]).buffer.length ∧
      cursorInvariantStmt (BuffReader.new [0, 2, 97, 98]) :=
  ⟨by decide, c9_cursor_invariant (BuffReader.new [0, 2, 97, 98]) (by decide)⟩

/-- C1: refuted on the code — decoding each primitive from a buffer with fewer
remaining bytes than the read requires does not return `IndexOutOfBounce`; the
source indexes or slices without any prior bounds check, so every short read
aborts the process (a Rust panic, `Failure.panic` here) instead of returning a
typed error. -/
theorem c1_short_buffer_reads_abort :
    (BuffReader.new []).read_u8 = (Except.error Failure.panic, BuffReader.new []) ∧
    (BuffReader.new [0]).read_u16 = (Except.error Failure.panic, BuffReader.new [0]) ∧
    (BuffReader.new [0, 0, 0]).read_u32
      = (Except.error Failure.panic, BuffReader.new [0, 0, 0]) ∧
    (BuffReader.new [0, 0, 0]).read_variable_byte_int
      = (Except.error Failure.panic, BuffReader.new [0, 0, 0]) ∧
    (BuffReader.new [0, 2, 97]).read_string
      = (Except.error Failure.panic, BuffReader.mk [0, 2, 97] 2) ∧
    (BuffReader.new [0, 2, 97]).read_binary
      = (Except.error Failure.panic, BuffReader.mk [0, 2, 97] 2) :=
  ⟨rfl, rfl, rfl, rfl, rfl, rfl⟩

/-- C2: refuted on the code — on a property section whose declared length does
not land on a property boundary (declared length 1, first property consumes 2
bytes, running sum 2 overshoots), the loop does not stop with a
`DecodingError`: it keeps looping past the overshoot, consuming the rest of
the buffer as bogus property identifiers, and finally aborts the process when
`read_u8` runs off the end; with less fuel it is still spinning. For no fuel
bound does it surface an error return. -/
theorem c2_property_loop_overshoot_aborts :
    ConnackPacket.decode_properties (ConnackPacket.mk 0 0 0 0 0 [])
        (BuffReader.new [1, 1, 7, 170, 187, 204]) 10
      = (Outcome.panicked, BuffReader.mk [1, 1, 7, 170, 187, 204] 6) ∧
    ControlPacket.decode_properties (ControlPacket.clean [] [])
        (BuffReader.new [1, 1, 7, 170, 187, 204]) 10
      = ((Outcome.panicked : Outcome ControlPacket),
          BuffReader.mk [1, 1, 7, 170, 187, 204] 6) ∧
    ∀ fuel : Nat,
      (ConnackPacket.decode_properties (ConnackPacket.mk 0 0 0 0 0 [])
          (BuffReader.new [1, 1, 7, 170, 187, 204]) fuel).1 = Outcome.panicked ∨
      (ConnackPacket.decode_properties (ConnackPacket.mk 0 0 0 0 0 [])
          (BuffReader.new [1, 1, 7, 170, 187, 204]) fuel).1 = Outcome.spun := by
  refine ⟨rfl, rfl, ?_⟩
  intro fuel
  match fuel with
  | 0 => exact Or.inr rfl
  | 1 => exact Or.inr rfl
  | 2 => exact Or.inr rfl
  | 3 => exact Or.inr rfl
  | 4 => exact Or.inr rfl
  | (n + 5) => exact Or.inl rfl

/-- C3: refuted on the code — on the 2-byte encoding of 128 (`0x80 0x01`) the
read returns the right value (the 4-byte decoder itself scans continuation
bits) but advances the cursor by 1, not by the true encoded length 2: the
source's continuation test `byte & 0x80 == 1` compares a mask result that is
only ever 0 or 128 against 1, so it is always false and the cursor always
advances by exactly one byte. -/
theorem c3_varint_cursor_advance_wrong :
    (BuffReader.new [0x80, 0x01, 0x00, 0x00]).read_variable_byte_int
      = (Except.ok 128, BuffReader.mk [0x80, 0x01, 0x00, 0x00] 1) ∧
    variableByteIntSize 128 = 2 ∧
    (0x80 &&& 0x80 : Nat) ≠ 1 := by
  refine ⟨rfl, rfl, by decide⟩

/-- C4: refuted on the code — with connect flags `0x04` (only bit 2, the Will
flag, set) the payload decoder reads only the client id and skips the will
sections (the packet keeps its pristine `will_topic`/`will_payload` and the
cursor stops after the client id even though will data follows), and with
flags `0xC0` (bits 7 and 6) it reads neither username nor password: the
source tests `connect_flags & (1 << k) == 1`, which is false for every bit
position other than 0. -/
theorem c4_connect_flag_gating_never_fires :
    ControlPacket.decode_payload
        { ControlPacket.clean [] [] with connect_flags := 0x04 }
        (BuffReader.new [0, 2, 97, 98, 0, 0, 0, 1, 119, 0, 1, 65]) 10
      = (Outcome.ok { ControlPacket.clean [] [] with
            connect_flags := 0x04,
            client_id := EncodedString.mk [97, 98] 2 },
          BuffReader.mk [0, 2, 97, 98, 0, 0, 0, 1, 119, 0, 1, 65] 4) ∧
    ControlPacket.decode_payload
        { ControlPacket.clean [] [] with connect_flags := 0xC0 }
        (BuffReader.new [0, 2, 97, 98, 0, 3, 117, 115, 114, 0, 2, 112, 119]) 10
      = (Outcome.ok { ControlPacket.clean [] [] with
            connect_flags := 0xC0,
            client_id := EncodedString.mk [97, 98] 2 },
          BuffReader.mk [0, 2, 97, 98, 0, 3, 117, 115, 114, 0, 2, 112, 119] 4) :=
  ⟨rfl, rfl⟩

/-- C5: refuted on the code — fed a CONNECT fixed header (`0x10`), the CONNACK
decoder logs and returns normally with a packet holding only the fixed-header
fields, every other field still zero-initialized, and no `DecodingError` (the
outcome is `ok`); fed a CONNACK fixed header (`0x20`), the CONNECT decoder
does not even stop: it continues decoding (the cursor reaches position 4,
past the protocol-name length it read after the failed type check) until an
unchecked read aborts. -/
theorem c5_type_mismatch_not_aborted_with_error :
    ConnackPacket.decode_connack_packet (ConnackPacket.mk 0 0 0 0 0 [])
        (BuffReader.new [0x10, 0, 0, 0, 0]) 10
      = (Outcome.ok (ConnackPacket.mk 0x10 0 0 0 0 []),
          BuffReader.mk [0x10, 0, 0, 0, 0] 2) ∧
    ControlPacket.decode_control_packet (ControlPacket.clean [] [])
        (BuffReader.new [0x20, 0, 0, 0, 0]) 10
      = ((Outcome.panicked : Outcome ControlPacket),
          BuffReader.mk [0x20, 0, 0, 0, 0] 4) :=
  ⟨rfl, rfl⟩

/-- C6: refuted on the code — a failed sub-read does not short-circuit the
enclosing decode as a surfaced recoverable result: `read_string` returns the
recoverable `Utf8Error` on the invalid byte `0xFF`, but `decode_payload`
unwraps it into a process abort (fatal, nothing surfaced to the caller); and
after a failed property decode (`0x7F` is no property identifier) the
property loop continues decoding subsequent bytes as if nothing happened,
completing with a normal `break`. -/
theorem c6_subread_failure_fatal_or_ignored :
    (BuffReader.new [0, 1, 0xFF]).read_string
      = (Except.error (Failure.err ParseError.Utf8Error), BuffReader.mk [0, 1, 0xFF] 2) ∧
    ControlPacket.decode_payload (ControlPacket.clean [] [])
        (BuffReader.new [0, 1, 0xFF]) 10
      = ((Outcome.panicked : Outcome ControlPacket), BuffReader.mk [0, 1, 0xFF] 2) ∧
    property_decode_loop 18 2 10 0 [] (BuffReader.new [0x7F, 0x01, 0x00])
      = LoopOut.broke [Property.payloadFormatIndicator 0] 2
          (BuffReader.mk [0x7F, 0x01, 0x00] 3) :=
  ⟨rfl, rfl, rfl⟩

/-- C7: refuted on the code — a successful `read_binary` of a 1-byte payload
leaves the cursor at position 2 (only the length prefix was accounted), not at
2 + 1 as the claim requires: the source never calls `increment_position` for
the payload bytes. `read_string` on the same shape does advance to 3. -/
theorem c7_read_binary_cursor_not_advanced :
    (BuffReader.new [0, 1, 171]).read_binary
      = (Except.ok (BinaryData.mk [171] 1), BuffReader.mk [0, 1, 171] 2) ∧
    (BuffReader.new [0, 1, 97]).read_string
      = (Except.ok (EncodedString.mk [97] 1), BuffReader.mk [0, 1, 97] 3) :=
  ⟨rfl, rfl⟩

/-- C8: refuted on the code — a property section declaring 38 bytes of
properties (19 two-byte records) against the capacity-18 list decodes to a
normal `ok` outcome holding exactly 18 properties: the 19th `push` fails on
the full `heapless::Vec`, its `Result` is discarded, the record is silently
dropped, and no capacity-exceeded error of any kind is reported. -/
theorem c8_capacity_overflow_silently_dropped :
    ControlPacket.decode_properties (ControlPacket.clean [] [])
        (BuffReader.new ((0x26 : Nat) :: (List.replicate 19 [(0x01 : Nat), 0x07]).flatten))
        25
      = (Outcome.ok { ControlPacket.clean [] [] with
            property_len := 38,
            properties := List.replicate 18 (Property.payloadFormatIndicator 7) },
          BuffReader.mk ((0x26 : Nat) :: (List.replicate 19 [(0x01 : Nat), 0x07]).flatten)
            39) := by
  rfl

/-- C10: the `Packet` trait's `decode` for `ControlPacket` is a no-op apart
from one diagnostic: it reads no bytes, leaves the reader (cursor included)
unchanged, and modifies no field of the packet. -/
theorem c10_trait_decode_is_noop (p : ControlPacket) (r : BuffReader) :
    (ControlPacket.trait_decode p r).1 = p ∧
      (ControlPacket.trait_decode p r).2.1 = r ∧
      (ControlPacket.trait_decode p r).2.2 = 1 :=
  ⟨rfl, rfl, rfl⟩
